import Mathlib

/-!
Shallow embedding of the naistro-player-box interruption core.

The definitions below are translated from the Python sources:
  - `app/interruption_manager.py` (class `InterruptionManager`)
  - `app/volume_controller.py`    (class `VolumeController`)
  - `app/player.py`               (method `Player.play_track_at_offset`)

Wall-clock times are modelled as rationals (seconds since an arbitrary
epoch); `datetime` arithmetic translates to plain rational arithmetic.
A timestamp string is modelled by its parse result (`TSParse`): `ok t`
when `datetime.fromisoformat` succeeds with value `t`, `bad` when it
raises (`ValueError`) or the `start` key is missing (`KeyError`) -- both
escape the sort key unprotected in the source.  Fallible dictionary
accesses are modelled with `Option`.
-/

namespace NaistroPlayer

/-- The three interruption kinds handled by `InterruptionManager`
(the `type` field of the interruption dictionaries). -/
inductive IKind
  | prayer
  | campaign
  | birthday
deriving DecidableEq, Repr

/-- Result of parsing an entry's `start` timestamp: `ok t` when parsing
succeeds (value `t`, seconds), `bad` when the raw string is malformed or
the key is missing, so that the access raises. -/
inductive TSParse
  | ok (t : ℚ)
  | bad
deriving DecidableEq, Repr

/-- Whether a timestamp parses (`datetime.fromisoformat` does not raise). -/
def tsOk : TSParse → Bool
  | TSParse.ok _ => true
  | TSParse.bad => false

/-- Parsed value of a timestamp (only meaningful when it parses). -/
def tsVal : TSParse → ℚ
  | TSParse.ok t => t
  | TSParse.bad => 0

/-- One element of `interruptions['prayerTimes']`. -/
structure PrayerEntry where
  start : TSParse
  title : Option String
deriving DecidableEq, Repr

/-- One element of `interruptions['ads']`.  `md5`/`url` are `none` when
the corresponding dictionary key is missing (access raises `KeyError`,
caught by the per-entry handler). -/
structure CampaignEntry where
  start : TSParse
  title : Option String
  md5 : Option String
  url : Option String
  exactTime : Bool
deriving DecidableEq, Repr

/-- The `interruptions` dictionary of the location data.
`prayerConfigMd5` models `interruptions.get('config', {}).get('prayerTimes')`
followed by the `['md5']` access in `_setup_next_prayer`:
`none` when the config is absent (the subscript then raises `TypeError`,
which the per-entry handler does not catch), `some none` when the config
dictionary exists but lacks `md5` (a per-entry `KeyError`),
`some (some m)` when the md5 is present. -/
structure Interruptions where
  prayerTimes : List PrayerEntry
  prayerConfigMd5 : Option (Option String)
  ads : List CampaignEntry
deriving DecidableEq, Repr

/-- Location data consumed by the interruption manager.
`volume` is `none` when `location_data['volume']` is missing or
`float(...)` raises. -/
structure LocationData where
  volume : Option ℚ
  isBdayEnabled : Bool
  bDayTrackMd5 : Option String
  interruptions : Interruptions
deriving DecidableEq, Repr

/-- The `next_prayer` dictionary built by `_setup_next_prayer`
(`start` already timezone-adjusted). -/
structure NextPrayer where
  title : String
  md5 : String
  start : ℚ
deriving DecidableEq, Repr

/-- The `next_campaign` dictionary built by `_setup_next_campaign`
(`start` already timezone-adjusted). -/
structure NextCampaign where
  title : String
  md5 : String
  url : String
  exactTime : Bool
  start : ℚ
deriving DecidableEq, Repr

/-- Stable insertion of `a` into a list already sorted (ascending) by
`key`: earlier elements with an equal key stay in front of `a`. -/
def insertByKey {α : Type} (key : α → ℚ) (a : α) : List α → List α
  | [] => [a]
  | b :: rest => if key b < key a then b :: insertByKey key a rest else a :: b :: rest

/-- Stable ascending sort by a rational key, as Python's `sorted`. -/
def sortByKey {α : Type} (key : α → ℚ) : List α → List α
  | [] => []
  | a :: rest => insertByKey key a (sortByKey key rest)

/-- The selection loop of `_setup_next_prayer` (lines 61-92): walk the
sorted prayers, skip entries whose in-loop parse raises, and return the
first entry whose offset-adjusted start is strictly in the future.
The `['md5']` access on an absent config (`cfg = none`) raises
`TypeError`, which escapes to the outer handler: nothing is selected. -/
def selectNextPrayerFrom (cfg : Option (Option String)) (locOffset now : ℚ) :
    List PrayerEntry → Option NextPrayer
  | [] => none
  | p :: rest =>
    match p.start with
    | TSParse.bad => selectNextPrayerFrom cfg locOffset now rest
    | TSParse.ok t =>
      let adj := t - (locOffset * (-1))
      if now < adj then
        match cfg with
        | none => none
        | some none => selectNextPrayerFrom cfg locOffset now rest
        | some (some m) =>
          some { title := p.title.getD "Untitled Prayer", md5 := m, start := adj }
      else selectNextPrayerFrom cfg locOffset now rest

/-- `_setup_next_prayer`, selection part: empty list means nothing to do;
the `sorted(..., key=lambda x: datetime.fromisoformat(x['start']))` call
parses every entry outside the per-entry handler, so a single entry whose
timestamp does not parse makes the sort raise, the outer handler catches,
and nothing is selected. -/
def selectNextPrayer (ints : Interruptions) (locOffset now : ℚ) : Option NextPrayer :=
  if ints.prayerTimes.isEmpty then none
  else if !(ints.prayerTimes.all (fun p => tsOk p.start)) then none
  else selectNextPrayerFrom ints.prayerConfigMd5 locOffset now
    (sortByKey (fun p => tsVal p.start) ints.prayerTimes)

/-- The selection loop of `_setup_next_campaign` (lines 112-143): a missing
`md5` or `normalisedCampaignUrl` key raises `KeyError`, caught per entry. -/
def selectNextCampaignFrom (locOffset now : ℚ) :
    List CampaignEntry → Option NextCampaign
  | [] => none
  | c :: rest =>
    match c.start with
    | TSParse.bad => selectNextCampaignFrom locOffset now rest
    | TSParse.ok t =>
      let adj := t - (locOffset * (-1))
      if now < adj then
        match c.md5, c.url with
        | some m, some u =>
          some { title := c.title.getD "Untitled Campaign", md5 := m, url := u,
                 exactTime := c.exactTime, start := adj }
        | _, _ => selectNextCampaignFrom locOffset now rest
      else selectNextCampaignFrom locOffset now rest

/-- `_setup_next_campaign`, selection part; the unprotected parse inside
the sort key aborts the whole selection exactly as for prayers. -/
def selectNextCampaign (ints : Interruptions) (locOffset now : ℚ) : Option NextCampaign :=
  if ints.ads.isEmpty then none
  else if !(ints.ads.all (fun c => tsOk c.start)) then none
  else selectNextCampaignFrom locOffset now
    (sortByKey (fun c => tsVal c.start) ints.ads)

/-- Mutable fields of `InterruptionManager` (plus the main channel's
`pause` flag of `volume_controller.main_player`; `none` means no main
player is attached).  Timer handles are modelled by liveness booleans. -/
structure MState where
  nextPrayer : Option NextPrayer
  nextCampaign : Option NextCampaign
  prayerTimer : Bool
  campaignTimer : Bool
  isInSilence : Bool
  currentInterruptionType : Option IKind
  locationData : Option LocationData
  locationOffset : ℚ
  mainPlayerPause : Option Bool
deriving DecidableEq, Repr

/-- `next_delay = time_until_fade if campaign['exact_time'] else
max(time_until_fade, 2)` (line 158 of `interruption_manager.py`). -/
def nextDelay (timeUntilFade : ℚ) (exactTime : Bool) : ℚ :=
  if exactTime then timeUntilFade else max timeUntilFade 2

/-- State after a scheduling call, plus the delay the one-shot timer was
started with. -/
structure SchedResult where
  state : MState
  timerDelay : ℚ
deriving DecidableEq, Repr

/-- `_schedule_campaign`: fade starts 5 seconds before the campaign
(`time_until_fade = delay_seconds - 5`); an existing campaign timer is
cancelled and replaced by one firing after `nextDelay`. -/
def scheduleCampaign (st : MState) (c : NextCampaign) (delaySeconds : ℚ) : SchedResult :=
  let timeUntilFade := delaySeconds - 5
  { state := { st with nextCampaign := some c, campaignTimer := true },
    timerDelay := nextDelay timeUntilFade c.exactTime }

/-- `_schedule_prayer`: timer fires at `start - 5 - now` (fade start). -/
def schedulePrayer (st : MState) (p : NextPrayer) (now : ℚ) : SchedResult :=
  { state := { st with nextPrayer := some p, prayerTimer := true },
    timerDelay := (p.start - 5) - now }

/-- `_setup_next_campaign` as a state transformer: select the next
candidate and, when one exists, schedule it with
`delay_seconds = start - now`. -/
def setupNextCampaign (st : MState) (ints : Interruptions) (now : ℚ) : MState :=
  match selectNextCampaign ints st.locationOffset now with
  | none => st
  | some c => (scheduleCampaign st c (c.start - now)).state

/-- `_setup_next_prayer` as a state transformer. -/
def setupNextPrayer (st : MState) (ints : Interruptions) (now : ℚ) : MState :=
  match selectNextPrayer ints st.locationOffset now with
  | none => st
  | some p => (schedulePrayer st p now).state

/-- The guarded recomputation
`if self.location_data: self._setup_next_campaign(self.location_data.get('interruptions', {}))`
used by `_check_and_play_campaign` and `_handle_interruption_complete`. -/
def rescheduleCampaign (st : MState) (now : ℚ) : MState :=
  match st.locationData with
  | some ld => setupNextCampaign st ld.interruptions now
  | none => st

/-- The analogous guarded prayer recomputation. -/
def reschedulePrayer (st : MState) (now : ℚ) : MState :=
  match st.locationData with
  | some ld => setupNextPrayer st ld.interruptions now
  | none => st

/-- The location-volume validation of `_play_interruption` (lines 262-268):
`float(self.location_data['volume'])`, default `10.0` when the data is
absent, unparsable, or outside `[0, 10]`. -/
def effectiveVolume (ld : Option LocationData) : ℚ :=
  match ld with
  | none => 10
  | some l =>
    match l.volume with
    | none => 10
    | some v => if 0 ≤ v ∧ v ≤ 10 then v else 10

/-- The interruption dictionary handed to `_play_interruption` (all three
construction sites supply an `md5` key; `title` is optional). -/
structure Interruption where
  kind : IKind
  md5 : String
  title : Option String
deriving DecidableEq, Repr

/-- Observable outcome of `_play_interruption`. -/
inductive PlayOutcome
  | rejectedPrayerActive
  | failedNoContent
  | started (audioFile : String) (locationVolume : ℚ)
deriving DecidableEq, Repr

/-- The per-kind branch of `_handle_interruption_complete` (lines 300-318):
clear the finished kind's schedule entry, cancel its timer, and recompute
its next occurrence. -/
def completeResched (st : MState) (k : IKind) (now : ℚ) : MState :=
  match k with
  | IKind.campaign =>
    rescheduleCampaign { st with nextCampaign := none, campaignTimer := false } now
  | IKind.prayer =>
    reschedulePrayer { st with nextPrayer := none, prayerTimer := false } now
  | IKind.birthday => st

/-- `_handle_interruption_complete`.  `pauseRaises` marks the run where
the access to `volume_controller.main_player` at lines 325-326 raises:
the `except` clause then only resets `is_in_silence` and
`current_interruption_type`, leaving the pause flag untouched. -/
def handleInterruptionComplete (st : MState) (k : IKind) (now : ℚ)
    (pauseRaises : Bool) : MState :=
  let st2 := { completeResched st k now with
               isInSilence := false, currentInterruptionType := none }
  if pauseRaises then st2
  else
    match st2.mainPlayerPause with
    | some true => { st2 with mainPlayerPause := some false }
    | _ => st2

/-- `_play_interruption`: reject while a prayer plays; resolve the content
hash through `InterruptionStorage.get_interruption_path` (`resolve`);
an unresolved hash goes straight to `_handle_interruption_complete`;
otherwise hand off to the volume controller and record the new state. -/
def playInterruption (resolve : String → Option String) (st : MState)
    (i : Interruption) (now : ℚ) (pauseRaises : Bool) : MState × PlayOutcome :=
  if st.currentInterruptionType = some IKind.prayer then
    (st, PlayOutcome.rejectedPrayerActive)
  else
    let vol := effectiveVolume st.locationData
    match resolve i.md5 with
    | none => (handleInterruptionComplete st i.kind now pauseRaises,
               PlayOutcome.failedNoContent)
    | some audioFile =>
      ({ st with currentInterruptionType := some i.kind },
       PlayOutcome.started audioFile vol)

/-- What `_check_and_play_campaign` did on this firing. -/
inductive CampaignCheckAction
  | canceledForActivePrayer
  | skippedForUpcomingPrayer
  | played
deriving DecidableEq, Repr

/-- The campaign dictionary viewed as a `_play_interruption` argument. -/
def campaignToInterruption (c : NextCampaign) : Interruption :=
  { kind := IKind.campaign, md5 := c.md5, title := some c.title }

/-- `_check_and_play_campaign`: prayer playing → clear the campaign entry
and timer and recompute; pending prayer starting strictly within the next
30 seconds → skip with no rescheduling; otherwise play the campaign. -/
def checkAndPlayCampaign (resolve : String → Option String) (st : MState)
    (c : NextCampaign) (now : ℚ) (pauseRaises : Bool) : MState × CampaignCheckAction :=
  if st.currentInterruptionType = some IKind.prayer then
    (rescheduleCampaign { st with nextCampaign := none, campaignTimer := false } now,
     CampaignCheckAction.canceledForActivePrayer)
  else
    match st.nextPrayer with
    | some p =>
      if now < p.start ∧ p.start < now + 30 then
        (st, CampaignCheckAction.skippedForUpcomingPrayer)
      else
        ((playInterruption resolve st (campaignToInterruption c) now pauseRaises).1,
         CampaignCheckAction.played)
    | none =>
      ((playInterruption resolve st (campaignToInterruption c) now pauseRaises).1,
       CampaignCheckAction.played)

/-- `trigger_birthday`: the guards return `False` without touching state;
a missing `bDayTrackMd5` key raises inside the `try` and also returns
`False`; otherwise `_play_interruption` runs and `True` is returned. -/
def triggerBirthday (resolve : String → Option String) (st : MState) (now : ℚ)
    (pauseRaises : Bool) : MState × Bool :=
  match st.locationData with
  | none => (st, false)
  | some ld =>
    if !ld.isBdayEnabled then (st, false)
    else if st.currentInterruptionType = some IKind.prayer then (st, false)
    else
      match ld.bDayTrackMd5 with
      | none => (st, false)
      | some m =>
        ((playInterruption resolve st
            { kind := IKind.birthday, md5 := m, title := none } now pauseRaises).1,
         true)

/-- External trigger events driving the interruption state machine. -/
inductive TriggerEvent
  | playReq (i : Interruption)
  | complete (k : IKind)
deriving DecidableEq, Repr

/-- One event step over the manager state. -/
def stepEvent (resolve : String → Option String) (now : ℚ) (pauseRaises : Bool)
    (st : MState) : TriggerEvent → MState
  | TriggerEvent.playReq i => (playInterruption resolve st i now pauseRaises).1
  | TriggerEvent.complete k => handleInterruptionComplete st k now pauseRaises

/-- Run a sequence of trigger events. -/
def runEvents (resolve : String → Option String) (now : ℚ) (pauseRaises : Bool)
    (st : MState) : List TriggerEvent → MState
  | [] => st
  | e :: es => runEvents resolve now pauseRaises (stepEvent resolve now pauseRaises st e) es

/-- Number of interruptions in a `playing-*` state: the manager keeps a
single `current_interruption_type` cell. -/
def playingCount (st : MState) : Nat :=
  match st.currentInterruptionType with
  | some _ => 1
  | none => 0

/-! ## Volume controller (`volume_controller.py`) -/

/-- `min(max(v, 0), 100)` -- the clamp used for fade volumes. -/
def clamp01 (v : ℚ) : ℚ := min (max v 0) 100

/-- `volume_step = (end_volume - start_volume) / steps` with `steps = 30`. -/
def volumeStep (startVolume endVolume : ℚ) : ℚ := (endVolume - startVolume) / 30

/-- The volume applied at step `k`:
`current_volume = min(max(start_volume + volume_step * current_step, 0), 100)`. -/
def fadeVolumeAt (s e : ℚ) (k : Nat) : ℚ := clamp01 (s + volumeStep s e * (k : ℚ))

/-- The `do_fade` recursion of `_fade_volume`, indexed by the current step
`k` and the number of volume applications still to come (`rem = 31 - k`
on the reachable states, since the guard is `current_step > steps` with
`steps = 30`).  Returns the list of volumes applied to the main channel
and the number of callback invocations (the callback fires exactly when
the guard trips, i.e. once, at step index `> 30`). -/
def doFadeFrom (s e : ℚ) : Nat → Nat → List ℚ × Nat
  | _, 0 => ([], 1)
  | k, rem + 1 =>
    let rest := doFadeFrom s e (k + 1) rem
    (fadeVolumeAt s e k :: rest.1, rest.2)

/-- Observable run of one `_fade_volume` call: the validated parameters,
the per-step delay (`step_time = duration_ms / (steps * 1000)` seconds),
the volumes applied, and the callback invocation count. -/
structure FadeRun where
  vStart : ℚ
  vEnd : ℚ
  vDurMs : ℚ
  stepDelaySec : ℚ
  volumes : List ℚ
  callbackCount : Nat
deriving DecidableEq, Repr

/-- `_fade_volume`: clamp the start and end volumes to `[0, 100]`, floor
the duration at 100 ms, then run `do_fade` from step 0; steps 0..30 apply
a volume, the call at step 31 fires the callback. -/
def fadeVolume (startVolume endVolume durationMs : ℚ) : FadeRun :=
  { vStart := clamp01 startVolume
    vEnd := clamp01 endVolume
    vDurMs := max durationMs 100
    stepDelaySec := max durationMs 100 / (30 * 1000)
    volumes := (doFadeFrom (clamp01 startVolume) (clamp01 endVolume) 0 31).1
    callbackCount := (doFadeFrom (clamp01 startVolume) (clamp01 endVolume) 0 31).2 }

/-- Boolean check that a list of rationals never increases. -/
def nonIncreasingQ : List ℚ → Bool
  | [] => true
  | [_] => true
  | a :: b :: rest => if b ≤ a then nonIncreasingQ (b :: rest) else false

/-! ## Playback offset calculator (`player.py`, `play_track_at_offset`) -/

/-- Python `int(...)` on a rational: truncation toward zero. -/
def pyTrunc (q : ℚ) : ℤ := if 0 ≤ q then ⌊q⌋ else -⌊-q⌋

/-- `location_offset = self.location_offset * 2 * -1;`
`offset = int(current_time - (play_at - (location_offset * 2)))`
(lines 166-168 of `player.py`). -/
def computeOffset (currentTime playAt locationOffset : ℚ) : ℤ :=
  let lo := locationOffset * 2 * (-1)
  pyTrunc (currentTime - (playAt - lo * 2))

/-- `play_track_at_offset`: only the first track (index 0) with a positive
runtime is seek-adjusted; `some pos` is the absolute seek position. -/
def playTrackAtOffset (index : Nat) (runtime : ℤ)
    (currentTime playAt locationOffset : ℚ) : Option ℤ :=
  if index = 0 ∧ 0 < runtime then
    let offset := computeOffset currentTime playAt locationOffset
    if 30 < runtime - offset ∧ 5 < offset then some offset
    else some (max (runtime - 60) 0)
  else none

/-! ## Concrete sample data used by witnesses and counterexamples -/

/-- An empty interruptions dictionary. -/
def emptyInterruptions : Interruptions :=
  { prayerTimes := [], prayerConfigMd5 := none, ads := [] }

/-- A location with birthdays enabled and a cached birthday hash field. -/
def sampleLoc : LocationData :=
  { volume := some 5, isBdayEnabled := true, bDayTrackMd5 := some "b",
    interruptions := emptyInterruptions }

/-- A quiescent manager state over `sampleLoc`. -/
def baseState : MState :=
  { nextPrayer := none, nextCampaign := none, prayerTimer := false,
    campaignTimer := false, isInSilence := false,
    currentInterruptionType := none, locationData := some sampleLoc,
    locationOffset := 0, mainPlayerPause := some false }

/-- A storage in which no content hash resolves. -/
def noResolve : String → Option String := fun _ => none

/-- A storage in which every content hash resolves to itself. -/
def allResolve : String → Option String := fun m => some m

/-- A sample pending campaign. -/
def sampleCampaign : NextCampaign :=
  { title := "C", md5 := "cm", url := "u", exactTime := false, start := 100 }

/-- A quiescent state in which a prayer interruption is currently playing. -/
def prayerActiveState : MState :=
  { baseState with currentInterruptionType := some IKind.prayer }

/-- A state whose main channel is paused (interruption in flight). -/
def pausedMainState : MState :=
  { baseState with mainPlayerPause := some true }

/-- A prayer entry whose `start` timestamp does not parse. -/
def badStartPrayer : PrayerEntry := { start := TSParse.bad, title := some "B" }

/-- A prayer entry with a valid future timestamp. -/
def goodPrayer : PrayerEntry := { start := TSParse.ok 1000, title := some "G" }

/-- Prayer candidates: one malformed timestamp among valid future ones. -/
def prayersWithOneBad : Interruptions :=
  { prayerTimes := [badStartPrayer, goodPrayer],
    prayerConfigMd5 := some (some "m"), ads := [] }

/-- Prayer candidates: the same list without the malformed entry. -/
def prayersAllGood : Interruptions :=
  { prayerTimes := [goodPrayer], prayerConfigMd5 := some (some "m"), ads := [] }

/-- A campaign entry whose `start` timestamp does not parse. -/
def badStartCampaign : CampaignEntry :=
  { start := TSParse.bad, title := some "B", md5 := some "cm",
    url := some "u", exactTime := false }

/-- A campaign entry with a valid future timestamp. -/
def goodCampaign : CampaignEntry :=
  { start := TSParse.ok 1000, title := some "G", md5 := some "cm",
    url := some "u", exactTime := false }

/-- Campaign candidates: one malformed timestamp among valid future ones. -/
def adsWithOneBad : Interruptions :=
  { prayerTimes := [], prayerConfigMd5 := none,
    ads := [badStartCampaign, goodCampaign] }

/-- Campaign candidates: the same list without the malformed entry. -/
def adsAllGood : Interruptions :=
  { prayerTimes := [], prayerConfigMd5 := none, ads := [goodCampaign] }

/-! ## Helper lemmas -/

lemma clamp01_nonneg (v : ℚ) : 0 ≤ clamp01 v :=
  le_min (le_max_right v 0) (by norm_num)

lemma clamp01_le_hundred (v : ℚ) : clamp01 v ≤ 100 := min_le_right _ _

lemma clamp01_of_bounds {v : ℚ} (h0 : 0 ≤ v) (h1 : v ≤ 100) : clamp01 v = v := by
  unfold clamp01
  rw [max_eq_left h0, min_eq_left h1]

lemma doFadeFrom_snd (s e : ℚ) : ∀ rem k, (doFadeFrom s e k rem).2 = 1 := by
  intro rem
  induction rem with
  | zero => intro k; rfl
  | succ n ih => intro k; simpa [doFadeFrom] using ih (k + 1)

lemma doFadeFrom_length (s e : ℚ) : ∀ rem k, (doFadeFrom s e k rem).1.length = rem := by
  intro rem
  induction rem with
  | zero => intro k; rfl
  | succ n ih => intro k; simpa [doFadeFrom] using ih (k + 1)

lemma doFadeFrom_getElem (s e : ℚ) :
    ∀ rem k j, (doFadeFrom s e k rem).1[j]? =
      if j < rem then some (fadeVolumeAt s e (k + j)) else none := by
  intro rem
  induction rem with
  | zero => intro k j; simp [doFadeFrom]
  | succ n ih =>
    intro k j
    cases j with
    | zero => simp [doFadeFrom]
    | succ m =>
      have h := ih (k + 1) m
      simp only [doFadeFrom, List.getElem?_cons_succ, h]
      have harith : k + 1 + m = k + (m + 1) := by omega
      rw [harith]
      simp [Nat.succ_lt_succ_iff]

lemma doFadeFrom_mem_bounds (s e : ℚ) :
    ∀ rem k v, v ∈ (doFadeFrom s e k rem).1 → 0 ≤ v ∧ v ≤ 100 := by
  intro rem
  induction rem with
  | zero => intro k v hv; simp [doFadeFrom] at hv
  | succ n ih =>
    intro k v hv
    simp only [doFadeFrom, List.mem_cons] at hv
    rcases hv with h | h
    · subst h; exact ⟨clamp01_nonneg _, clamp01_le_hundred _⟩
    · exact ih (k + 1) v h

lemma playingCount_le_one (st : MState) : playingCount st ≤ 1 := by
  unfold playingCount
  cases st.currentInterruptionType <;> simp

lemma scheduleCampaign_pause (st : MState) (c : NextCampaign) (d : ℚ) :
    (scheduleCampaign st c d).state.mainPlayerPause = st.mainPlayerPause := rfl

lemma schedulePrayer_pause (st : MState) (p : NextPrayer) (now : ℚ) :
    (schedulePrayer st p now).state.mainPlayerPause = st.mainPlayerPause := rfl

lemma setupNextCampaign_pause (st : MState) (ints : Interruptions) (now : ℚ) :
    (setupNextCampaign st ints now).mainPlayerPause = st.mainPlayerPause := by
  unfold setupNextCampaign
  cases selectNextCampaign ints st.locationOffset now <;> rfl

lemma setupNextPrayer_pause (st : MState) (ints : Interruptions) (now : ℚ) :
    (setupNextPrayer st ints now).mainPlayerPause = st.mainPlayerPause := by
  unfold setupNextPrayer
  cases selectNextPrayer ints st.locationOffset now <;> rfl

lemma rescheduleCampaign_pause (st : MState) (now : ℚ) :
    (rescheduleCampaign st now).mainPlayerPause = st.mainPlayerPause := by
  unfold rescheduleCampaign
  cases st.locationData <;> simp [setupNextCampaign_pause]

lemma reschedulePrayer_pause (st : MState) (now : ℚ) :
    (reschedulePrayer st now).mainPlayerPause = st.mainPlayerPause := by
  unfold reschedulePrayer
  cases st.locationData <;> simp [setupNextPrayer_pause]

lemma completeResched_pause (st : MState) (k : IKind) (now : ℚ) :
    (completeResched st k now).mainPlayerPause = st.mainPlayerPause := by
  cases k <;>
    simp [completeResched, rescheduleCampaign_pause, reschedulePrayer_pause]

/-! ## Claim theorems -/

/-- Claim C9: when scheduling a campaign whose computed time-until-fade is
`t = delaySeconds - 5`, the timer delay is `max t 2` when the exact-time
flag is false, and exactly `t` — even when `t` is negative or below 2 —
when the flag is true. -/
theorem campaign_delay_floor_C9 :
    ∀ (st : MState) (c : NextCampaign) (delaySeconds : ℚ),
      (scheduleCampaign st c delaySeconds).timerDelay =
        (if c.exactTime then delaySeconds - 5 else max (delaySeconds - 5) 2) ∧
      (∀ t : ℚ, nextDelay t true = t ∧ nextDelay t false = max t 2) := by
  intro st c d
  constructor
  · rfl
  · intro t; exact ⟨rfl, rfl⟩

/-- Claim C4, counterexample: with `currentTime = 10000`, `playAt = 0` and
`locationOffset = 3600`, the code computes seek offset `-4400`, while the
claimed formula `currentTime - (playAt - 2 * locationOffset)` gives
`17200`. -/
theorem offset_formula_C4_counterexample :
    computeOffset 10000 0 3600 = -4400 ∧
    pyTrunc ((10000 : ℚ) - (0 - 2 * 3600)) = 17200 ∧
    (-4400 : ℤ) ≠ 17200 := by
  refine ⟨?_, ?_, by decide⟩
  · show pyTrunc ((10000 : ℚ) - (0 - 3600 * 2 * (-1) * 2)) = -4400
    unfold pyTrunc
    norm_num
  · unfold pyTrunc
    norm_num

/-- Claim C4, amended: for the first track of a session, the computed seek
offset equals the int-truncation of
`currentTime - (playAt + 4 * locationOffset)` — the code first negates and
doubles the location offset and then doubles it again, so the offset term
enters with factor `-4`, not `+2`. -/
theorem offset_formula_C4_amended :
    ∀ currentTime playAt locationOffset : ℚ,
      computeOffset currentTime playAt locationOffset =
        pyTrunc (currentTime - (playAt + 4 * locationOffset)) := by
  intro ct pa L
  show pyTrunc (ct - (pa - L * 2 * (-1) * 2)) = pyTrunc (ct - (pa + 4 * L))
  exact congrArg pyTrunc (by ring)

/-- Claim C10: for every fade request the start and end volumes are clamped
to `[0,100]` and the duration is floored at 100 ms before any step is
computed, and every volume the fade applies to the main channel lies in
`[0,100]`, whatever the caller passed. -/
theorem fade_input_clamping_C10 :
    ∀ s e d : ℚ,
      (fadeVolume s e d).vStart = clamp01 s ∧
      (fadeVolume s e d).vEnd = clamp01 e ∧
      (fadeVolume s e d).vDurMs = max d 100 ∧
      ∀ v ∈ (fadeVolume s e d).volumes, 0 ≤ v ∧ v ≤ 100 :=
  fun s e d =>
    ⟨rfl, rfl, rfl,
     fun v hv => doFadeFrom_mem_bounds (clamp01 s) (clamp01 e) 31 0 v hv⟩

/-- Claim C10, witness: an out-of-range request (start 150, end −7,
duration 10 ms) is clamped, and the first applied volume 100 is in
bounds. -/
theorem fade_input_clamping_C10_witness :
    (fadeVolume 150 (-7) 10).vStart = clamp01 150 ∧
    (fadeVolume 150 (-7) 10).vDurMs = max 10 100 ∧
    (0 ≤ (100 : ℚ) ∧ (100 : ℚ) ≤ 100) :=
  ⟨(fade_input_clamping_C10 150 (-7) 10).1,
   (fade_input_clamping_C10 150 (-7) 10).2.2.1,
   (fade_input_clamping_C10 150 (-7) 10).2.2.2 100 (by
      norm_num [fadeVolume, doFadeFrom, fadeVolumeAt, clamp01, volumeStep])⟩

/-- Claim C2: a play-interruption request arriving while the state is
playing-prayer and asking for a non-prayer kind is rejected as a no-op
(no audio is started, the state is returned unchanged); and over any
sequence of prayer/campaign/birthday trigger events at most one
interruption is in a `playing-*` state at any instant. -/
theorem prayer_never_interrupted_C2 :
    (∀ (resolve : String → Option String) (st : MState) (i : Interruption)
       (now : ℚ) (pr : Bool),
       st.currentInterruptionType = some IKind.prayer → i.kind ≠ IKind.prayer →
       playInterruption resolve st i now pr = (st, PlayOutcome.rejectedPrayerActive)) ∧
    (∀ (resolve : String → Option String) (now : ℚ) (pr : Bool) (st : MState)
       (es : List TriggerEvent),
       playingCount (runEvents resolve now pr st es) ≤ 1) := by
  constructor
  · intro resolve st i now pr h _
    simp [playInterruption, h]
  · intro resolve now pr st es
    exact playingCount_le_one _

/-- Claim C2, witness: a campaign request while a prayer plays is a no-op. -/
theorem prayer_never_interrupted_C2_witness :
    playInterruption noResolve prayerActiveState
        { kind := IKind.campaign, md5 := "cm", title := none } 0 false =
      (prayerActiveState, PlayOutcome.rejectedPrayerActive) :=
  prayer_never_interrupted_C2.1 noResolve prayerActiveState
    { kind := IKind.campaign, md5 := "cm", title := none } 0 false rfl (by decide)

/-- Claim C6 (code bug): a single malformed `start` timestamp in a
candidate list aborts next-occurrence selection for the whole list —
the unprotected parse inside the sort key raises before the per-entry
handler can skip the entry — whereas the same list without the malformed
entry selects and schedules the valid future entry. -/
theorem malformed_timestamp_aborts_C6 :
    selectNextPrayer prayersWithOneBad 0 0 = none ∧
    selectNextPrayer prayersAllGood 0 0 =
      some { title := "G", md5 := "m", start := 1000 } ∧
    selectNextCampaign adsWithOneBad 0 0 = none ∧
    selectNextCampaign adsAllGood 0 0 =
      some { title := "G", md5 := "cm", url := "u", exactTime := false,
             start := 1000 } := by
  refine ⟨rfl, ?_, rfl, ?_⟩
  · norm_num [selectNextPrayer, selectNextPrayerFrom, sortByKey, insertByKey,
      prayersAllGood, goodPrayer, tsOk, tsVal]
  · norm_num [selectNextCampaign, selectNextCampaignFrom, sortByKey, insertByKey,
      adsAllGood, goodCampaign, tsOk, tsVal]

/-- Claim C7, counterexample: with birthdays enabled, no prayer active and
a birthday hash that does **not** resolve to a cached file, the trigger
still returns success — contradicting "returns success only if the
content hash resolves". -/
theorem trigger_birthday_C7_counterexample :
    (triggerBirthday noResolve baseState 0 false).2 = true ∧
    baseState.locationData = some sampleLoc ∧
    sampleLoc.bDayTrackMd5 = some "b" ∧
    noResolve "b" = none :=
  ⟨rfl, rfl, rfl, rfl⟩

/-- Claim C7, amended: the manual birthday trigger returns success iff
location data is present, birthdays are enabled, no prayer is currently
active, and the birthday track hash field is present; whether the hash
resolves does not influence the returned result (an unresolved hash is
routed through completion handling while the trigger still reports
success); every failure returns `false` with the state unchanged. -/
theorem trigger_birthday_C7_amended :
    ∀ (resolve : String → Option String) (st : MState) (now : ℚ) (pr : Bool),
      ((triggerBirthday resolve st now pr).2 = true ↔
        (∃ ld, st.locationData = some ld ∧ ld.isBdayEnabled = true ∧
          ld.bDayTrackMd5.isSome = true) ∧
        st.currentInterruptionType ≠ some IKind.prayer) ∧
      ((triggerBirthday resolve st now pr).2 = false →
        (triggerBirthday resolve st now pr).1 = st) := by
  intro resolve st now pr
  cases hld : st.locationData with
  | none => simp [triggerBirthday, hld]
  | some ld =>
    by_cases hb : ld.isBdayEnabled
    · by_cases hcur : st.currentInterruptionType = some IKind.prayer
      · simp [triggerBirthday, hld, hb, hcur]
      · cases hm : ld.bDayTrackMd5 with
        | none => simp [triggerBirthday, hld, hb, hcur, hm]
        | some m => simp [triggerBirthday, hld, hb, hcur, hm]
    · simp [triggerBirthday, hld, hb]

/-- Claim C7, witness: with everything present and a resolving storage the
trigger succeeds. -/
theorem trigger_birthday_C7_witness :
    (triggerBirthday allResolve baseState 0 false).2 = true :=
  (trigger_birthday_C7_amended allResolve baseState 0 false).1.mpr
    ⟨⟨sampleLoc, rfl, rfl, rfl⟩, by decide⟩

/-- Claim C8, counterexample: on the error path of completion handling
(the main-player access raises), the interruption state is reset to idle
but the main channel's paused flag is **not** cleared — it stays
`some true` instead of becoming `some false`. -/
theorem completion_pause_C8_counterexample :
    (handleInterruptionComplete pausedMainState IKind.birthday 0 true).mainPlayerPause
        = some true ∧
    (some true : Option Bool) ≠ some false ∧
    (handleInterruptionComplete pausedMainState IKind.birthday 0 true).currentInterruptionType
        = none :=
  ⟨rfl, by decide, rfl⟩

/-- Claim C8, amended: every invocation of completion handling resets the
interruption state to idle and clears the silence flag, on normal and
error paths alike; the main channel's paused flag is cleared on every
non-exception run (when a main player is attached), but an exception
raised at the main-player access leaves the paused flag unchanged. -/
theorem completion_reset_C8_amended :
    ∀ (st : MState) (k : IKind) (now : ℚ) (pr : Bool),
      (handleInterruptionComplete st k now pr).currentInterruptionType = none ∧
      (handleInterruptionComplete st k now pr).isInSilence = false ∧
      (pr = false →
        (handleInterruptionComplete st k now pr).mainPlayerPause =
          st.mainPlayerPause.map (fun _ => false)) ∧
      (pr = true →
        (handleInterruptionComplete st k now pr).mainPlayerPause =
          st.mainPlayerPause) := by
  intro st k now pr
  have hp := completeResched_pause st k now
  cases pr with
  | true =>
    cases hmp : st.mainPlayerPause with
    | none =>
      rw [hmp] at hp
      refine ⟨?_, ?_, ?_, ?_⟩ <;> simp [handleInterruptionComplete, hp, hmp]
    | some b =>
      rw [hmp] at hp
      refine ⟨?_, ?_, ?_, ?_⟩ <;> simp [handleInterruptionComplete, hp, hmp]
  | false =>
    cases hmp : st.mainPlayerPause with
    | none =>
      rw [hmp] at hp
      refine ⟨?_, ?_, ?_, ?_⟩ <;> simp [handleInterruptionComplete, hp, hmp]
    | some b =>
      rw [hmp] at hp
      cases b with
      | true =>
        refine ⟨?_, ?_, ?_, ?_⟩ <;> simp [handleInterruptionComplete, hp, hmp]
      | false =>
        refine ⟨?_, ?_, ?_, ?_⟩ <;> simp [handleInterruptionComplete, hp, hmp]

/-- Claim C8, witness: a normal completion run on a paused main channel
clears the paused flag. -/
theorem completion_reset_C8_witness :
    (handleInterruptionComplete pausedMainState IKind.campaign 0 false).mainPlayerPause
      = some false :=
  ((completion_reset_C8_amended pausedMainState IKind.campaign 0 false).2.2.1 rfl).trans rfl

/-- Claim C1: when the campaign timer fires, a currently playing prayer
cancels the attempt, clears the pending campaign entry and its timer, and
immediately recomputes the next campaign from the candidate list; a
pending prayer starting strictly between `now` and `now + 30` makes the
check skip the occurrence with no rescheduling; otherwise the campaign is
played. -/
theorem campaign_preemption_check_C1 :
    ∀ (resolve : String → Option String) (st : MState) (c : NextCampaign)
      (now : ℚ) (pr : Bool),
      (st.currentInterruptionType = some IKind.prayer →
        checkAndPlayCampaign resolve st c now pr =
          (rescheduleCampaign
             { st with nextCampaign := none, campaignTimer := false } now,
           CampaignCheckAction.canceledForActivePrayer)) ∧
      (st.currentInterruptionType ≠ some IKind.prayer →
        ∀ p, st.nextPrayer = some p → now < p.start → p.start < now + 30 →
          checkAndPlayCampaign resolve st c now pr =
            (st, CampaignCheckAction.skippedForUpcomingPrayer)) ∧
      (st.currentInterruptionType ≠ some IKind.prayer →
        (∀ p, st.nextPrayer = some p → ¬(now < p.start ∧ p.start < now + 30)) →
        checkAndPlayCampaign resolve st c now pr =
          ((playInterruption resolve st (campaignToInterruption c) now pr).1,
           CampaignCheckAction.played)) := by
  intro resolve st c now pr
  refine ⟨?_, ?_, ?_⟩
  · intro h
    simp [checkAndPlayCampaign, h]
  · intro hne p hp h1 h2
    simp [checkAndPlayCampaign, hne, hp, h1, h2]
  · intro hne hno
    cases hps : st.nextPrayer with
    | none => simp [checkAndPlayCampaign, hne, hps]
    | some p =>
      have hn := hno p hps
      simp [checkAndPlayCampaign, hne, hps, hn]

/-- Claim C1, witness: with a prayer playing, the firing campaign check
cancels, clears and recomputes. -/
theorem campaign_preemption_check_C1_witness :
    checkAndPlayCampaign noResolve prayerActiveState sampleCampaign 0 false =
      (rescheduleCampaign
         { prayerActiveState with nextCampaign := none, campaignTimer := false } 0,
       CampaignCheckAction.canceledForActivePrayer) :=
  (campaign_preemption_check_C1 noResolve prayerActiveState sampleCampaign 0 false).1 rfl

/-- Claim C5: only the first track of a session (index 0, with a computed
offset, which requires a positive runtime) is seek-adjusted: to the
offset when more than 30 seconds of runtime would remain and the offset
exceeds 5 seconds, and to `max (runtime - 60) 0` otherwise; any other
index is never seek-adjusted. -/
theorem first_track_seek_C5 :
    ∀ (index : Nat) (runtime : ℤ) (currentTime playAt locationOffset : ℚ),
      (index = 0 → 0 < runtime →
        30 < runtime - computeOffset currentTime playAt locationOffset →
        5 < computeOffset currentTime playAt locationOffset →
        playTrackAtOffset index runtime currentTime playAt locationOffset =
          some (computeOffset currentTime playAt locationOffset)) ∧
      (index = 0 → 0 < runtime →
        ¬(30 < runtime - computeOffset currentTime playAt locationOffset ∧
          5 < computeOffset currentTime playAt locationOffset) →
        playTrackAtOffset index runtime currentTime playAt locationOffset =
          some (max (runtime - 60) 0)) ∧
      (index ≠ 0 →
        playTrackAtOffset index runtime currentTime playAt locationOffset = none) := by
  intro i R ct pa L
  refine ⟨?_, ?_, ?_⟩
  · intro h0 hR h30 h5
    simp [playTrackAtOffset, h0, hR, h30, h5]
  · intro h0 hR hn
    simp [playTrackAtOffset, h0, hR, hn]
  · intro hne
    simp [playTrackAtOffset, hne]

/-- Claim C5, witness: runtime 600 with computed offset 400 seeks to 400;
computed offset 3 seeks to `max (600 - 60) 0 = 540`; index 1 is never
adjusted. -/
theorem first_track_seek_C5_witness :
    playTrackAtOffset 0 600 400 0 0 = some 400 ∧
    playTrackAtOffset 0 600 3 0 0 = some 540 ∧
    playTrackAtOffset 1 600 400 0 0 = none := by
  have hoff1 : computeOffset 400 0 0 = 400 := by
    unfold computeOffset pyTrunc
    norm_num
  have hoff2 : computeOffset 3 0 0 = 3 := by
    unfold computeOffset pyTrunc
    norm_num
  refine ⟨?_, ?_, ?_⟩
  · have h := (first_track_seek_C5 0 600 400 0 0).1 rfl (by norm_num)
      (by rw [hoff1]; norm_num) (by rw [hoff1]; norm_num)
    rw [hoff1] at h
    exact h
  · have h := (first_track_seek_C5 0 600 3 0 0).2.1 rfl (by norm_num)
      (by rw [hoff2]; norm_num)
    rw [h]
    rw [show ((600 : ℤ) - 60) = 540 by norm_num,
        max_eq_left (by norm_num : (0 : ℤ) ≤ 540)]
  · exact (first_track_seek_C5 1 600 400 0 0).2.2 (by decide)

/-- The sequence of volumes a `_fade_volume 80 0 5000` run applies. -/
def fade80List : List ℚ :=
  [80, 232/3, 224/3, 72, 208/3, 200/3, 64, 184/3, 176/3, 56, 160/3, 152/3,
   48, 136/3, 128/3, 40, 112/3, 104/3, 32, 88/3, 80/3, 24, 64/3, 56/3, 16,
   40/3, 32/3, 8, 16/3, 8/3, 0]

lemma fadeVolume_80_volumes : (fadeVolume 80 0 5000).volumes = fade80List := by
  norm_num [fadeVolume, doFadeFrom, fadeVolumeAt, clamp01, volumeStep, fade80List]

lemma fade80_nonIncreasing : nonIncreasingQ fade80List = true := by
  norm_num [nonIncreasingQ, fade80List]

lemma fade80_last : fade80List.getLast? = some 0 := rfl

/-- Claim C3: a fade from `s` to `e` over duration `d` uses 30 steps with
per-step delay `d / 30` (duration in seconds) and per-step volume delta
`(e - s) / 30`, clamping each applied volume to `[0, 100]` (volumes are
applied at step indices 0..30); a fade from 80 to 0 yields a
non-increasing applied-volume sequence ending at exactly 0, and the
callback is invoked exactly once, after the final step (at step
index 31 > 30, where no volume is applied). -/
theorem fade_thirty_steps_C3 :
    (∀ s e d : ℚ, 0 ≤ s → s ≤ 100 → 0 ≤ e → e ≤ 100 → 100 ≤ d →
      (fadeVolume s e d).stepDelaySec = d / 1000 / 30 ∧
      (fadeVolume s e d).volumes.length = 31 ∧
      (∀ k : Nat, k ≤ 30 →
        (fadeVolume s e d).volumes[k]? =
          some (clamp01 (s + (e - s) / 30 * (k : ℚ)))) ∧
      (fadeVolume s e d).callbackCount = 1) ∧
    (nonIncreasingQ (fadeVolume 80 0 5000).volumes = true ∧
     (fadeVolume 80 0 5000).volumes.getLast? = some 0 ∧
     (fadeVolume 80 0 5000).callbackCount = 1 ∧
     doFadeFrom 80 0 31 0 = ([], 1)) := by
  constructor
  · intro s e d hs0 hs1 he0 he1 hd
    have hcs : clamp01 s = s := clamp01_of_bounds hs0 hs1
    have hce : clamp01 e = e := clamp01_of_bounds he0 he1
    refine ⟨?_, ?_, ?_, ?_⟩
    · show max d 100 / (30 * 1000) = d / 1000 / 30
      rw [max_eq_left hd, div_div]
      norm_num
    · show (doFadeFrom (clamp01 s) (clamp01 e) 0 31).1.length = 31
      rw [hcs, hce]
      exact doFadeFrom_length s e 31 0
    · intro k hk
      show (doFadeFrom (clamp01 s) (clamp01 e) 0 31).1[k]? = _
      rw [hcs, hce, doFadeFrom_getElem, if_pos (by omega : k < 31)]
      simp [fadeVolumeAt, volumeStep]
    · show (doFadeFrom (clamp01 s) (clamp01 e) 0 31).2 = 1
      rw [hcs, hce]
      exact doFadeFrom_snd s e 31 0
  · refine ⟨?_, ?_, ?_, rfl⟩
    · rw [fadeVolume_80_volumes]
      exact fade80_nonIncreasing
    · rw [fadeVolume_80_volumes]
      exact fade80_last
    · show (doFadeFrom (clamp01 80) (clamp01 0) 0 31).2 = 1
      exact doFadeFrom_snd (clamp01 80) (clamp01 0) 31 0

/-- Claim C3, witness: the 80→0 fade over 5000 ms has per-step delay
`5000/1000/30` seconds, 31 applied volumes (steps 0..30) and one callback
invocation. -/
theorem fade_thirty_steps_C3_witness :
    (fadeVolume 80 0 5000).stepDelaySec = 5000 / 1000 / 30 ∧
    (fadeVolume 80 0 5000).volumes.length = 31 ∧
    (fadeVolume 80 0 5000).callbackCount = 1 :=
  ⟨(fade_thirty_steps_C3.1 80 0 5000 (by norm_num) (by norm_num) (by norm_num)
      (by norm_num) (by norm_num)).1,
   (fade_thirty_steps_C3.1 80 0 5000 (by norm_num) (by norm_num) (by norm_num)
      (by norm_num) (by norm_num)).2.1,
   (fade_thirty_steps_C3.1 80 0 5000 (by norm_num) (by norm_num) (by norm_num)
      (by norm_num) (by norm_num)).2.2.2⟩

end NaistroPlayer
